import Mathlib

/-!
Verification development for the `birthday_wisher` repository.

The repository composites a customer photo into a chroma-keyed video
template.  The core under study is `render.py` (configuration resolution,
compositing-plan derivation, pipeline invocation), together with the
intro/outro generators and the `render_video` orchestration in `app.py`.

The shallow embedding below translates the relevant parts of the source:

* the ffmpeg filter semantics used by `render.py` lines 85-92
  (`scale=w:h:force_original_aspect_ratio=increase,crop=w:h` and
  `scale=w:h:force_original_aspect_ratio=decrease,pad=w:h:(ow-iw)/2:(oh-ih)/2`)
  become `applyImgChain`;
* the configuration resolution of `render.py` lines 52-74 becomes
  `resolveConfig`;
* the two `filter_complex` graphs of `render.py` lines 98-124 become
  `filterComplexBorder` / `filterComplexNoBorder`, interpreted into
  back-to-front layer lists by `flattenRef`;
* `main` of `render.py` becomes `render_main`, a function over an abstract
  world recording which files exist, which emits the list of external
  process invocations it performs;
* `render_video` of `app.py` and `concatenate_videos_with_outro` of
  `outro_generator.py` become functions over an abstract temp-file state.
-/

/-! ## ffmpeg arithmetic

`av_rescale a b c` computes `a*b/c` rounded to the nearest integer, ties
away from zero.  All quantities here are non-negative, so rounding half
up: `(2*a*b + c) / (2*c)` in integer division. -/

def avRescale (a b c : ℕ) : ℕ := (2 * a * b + c) / (2 * c)

/-- `scale=w:h:force_original_aspect_ratio=increase` on an `iw×ih` input:
both requested dimensions are replaced by the max of the requested value
and the aspect-preserving rescale of the other requested value
(ffmpeg `vf_scale`: `w = FFMAX(tmp_w, w); h = FFMAX(tmp_h, h)`). -/
def scaleCover (w h iw ih : ℕ) : ℕ × ℕ :=
  (max (avRescale h iw ih) w, max (avRescale w ih iw) h)

/-- `scale=w:h:force_original_aspect_ratio=decrease` on an `iw×ih` input
(ffmpeg `vf_scale`: `w = FFMIN(tmp_w, w); h = FFMIN(tmp_h, h)`). -/
def scaleContain (w h iw ih : ℕ) : ℕ × ℕ :=
  (min (avRescale h iw ih) w, min (avRescale w ih iw) h)

/-- Result of running one of the two image chains of `render.py`
lines 88-92 on an input image: the intermediate scaled size, the final
layer size, and the crop offset (cover) resp. top-left padding (contain). -/
structure FitResult where
  scaledW : ℕ
  scaledH : ℕ
  outW : ℕ
  outH : ℕ
  offX : ℕ
  offY : ℕ
deriving DecidableEq

/-- The two image chains `render.py` can emit (line 89 and line 92),
carrying the placeholder dimensions taken from the resolved config. -/
inductive ImgChain
  | cover (w h : Int)
  | contain (w h : Int)
deriving DecidableEq

/-- Semantics of the image chain on an `iw×ih` input image.

`cover` is `scale=w:h:force_original_aspect_ratio=increase,crop=w:h`
(crop offsets default to the centre `(in_w-out_w)/2, (in_h-out_h)/2`;
`crop` fails if the input is smaller than the crop window).

`contain` is `scale=w:h:force_original_aspect_ratio=decrease,
pad=w:h:(ow-iw)/2:(oh-ih)/2` (`pad` fails if the input exceeds the padded
size). -/
def applyImgChain : ImgChain → ℕ × ℕ → Option FitResult
  | .cover w h, (iw, ih) =>
    let W := w.toNat
    let H := h.toNat
    let s := scaleCover W H iw ih
    if W ≤ s.1 ∧ H ≤ s.2 then
      some ⟨s.1, s.2, W, H, (s.1 - W) / 2, (s.2 - H) / 2⟩
    else none
  | .contain w h, (iw, ih) =>
    let W := w.toNat
    let H := h.toNat
    let s := scaleContain W H iw ih
    if s.1 ≤ W ∧ s.2 ≤ H then
      some ⟨s.1, s.2, W, H, (W - s.1) / 2, (H - s.2) / 2⟩
    else none

/-! ## Configuration model and resolution

`render.py` lines 50-74: the JSON config is a record whose `placeholder`
field is required (`cfg["placeholder"]`) and whose other fields are
optional (`cfg.get(...)`). -/

structure Placeholder where
  x : Int
  y : Int
  w : Int
  h : Int
deriving DecidableEq

/-- The raw template config as stored in `template.json`: every field the
code reads with `cfg.get` is optional; `placeholder` is accessed with
`cfg["placeholder"]` and hence required. -/
structure RawConfig where
  template_video : Option String
  border_png : Option String
  placeholder : Placeholder
  chroma_hex : Option String
  chroma_similarity : Option ℚ
  chroma_blend : Option ℚ
  fit : Option String
  out_fps : Option Int
  out_crf : Option Int
  out_preset : Option String
deriving DecidableEq

/-- The values `render.py` lines 52-74 derive from the raw config. -/
structure Resolved where
  x : Int
  y : Int
  w : Int
  h : Int
  chromaHex : String
  similarity : ℚ
  blend : ℚ
  fit : String
  fps : Int
  crf : Int
  preset : String
  borderPng : Option String
  templateVideo : String
deriving DecidableEq

/-- Python `str.lower()` restricted to ASCII, character by character (the
config strings involved are ASCII). -/
def pyLower (s : String) : String := ⟨s.data.map Char.toLower⟩

/-- Python `str.replace("#", "")`: delete every `'#'` character. -/
def stripHashes (s : String) : String := ⟨s.data.filter (fun c => c != '#')⟩

/-- Configuration resolution, transcribing `render.py` lines 52-74:
`chroma.get("hex", "3ec954").lower().replace("#", "")`,
`float(chroma.get("similarity", 0.23))`, `float(chroma.get("blend", 0.03))`,
`cfg.get("fit", "cover").lower()`, `int(out_cfg.get("fps", 30))`,
`int(out_cfg.get("crf", 18))`, `str(out_cfg.get("preset", "medium"))`,
`cfg.get("border_png")`, `cfg.get("template_video", "template.mp4")`. -/
def resolveConfig (cfg : RawConfig) : Resolved where
  x := cfg.placeholder.x
  y := cfg.placeholder.y
  w := cfg.placeholder.w
  h := cfg.placeholder.h
  chromaHex := stripHashes (pyLower (cfg.chroma_hex.getD "3ec954"))
  similarity := cfg.chroma_similarity.getD (23 / 100)
  blend := cfg.chroma_blend.getD (3 / 100)
  fit := pyLower (cfg.fit.getD "cover")
  fps := cfg.out_fps.getD 30
  crf := cfg.out_crf.getD 18
  preset := cfg.out_preset.getD "medium"
  borderPng := cfg.border_png
  templateVideo := cfg.template_video.getD "template.mp4"

/-- Chain selection, transcribing `render.py` lines 88-92: `contain`
gets the decrease/pad chain, every other resolved `fit` string gets the
default cover chain. -/
def planChain (r : Resolved) : ImgChain :=
  if r.fit = "contain" then .contain r.w r.h else .cover r.w r.h

/-! ## The filter graph

`render.py` lines 94-124.  Inputs are numbered by their position on the
command line: 0 = template video, 1 = customer image, 2 = border PNG.
Stream labels of the `filter_complex` string become an inductive type. -/

inductive Label
  | photo | base | bg | fg | v1 | vout
deriving DecidableEq

inductive StreamRef
  | input (n : ℕ)
  | labeled (l : Label)
deriving DecidableEq

/-- Filter operations appearing in the two `filter_complex` strings. -/
inductive FOp
  | imgScale (chain : ImgChain)
  | colorSrc (w h : ℕ)
  | overlay (x y : Int)
  | keyChain (hex : String) (similarity blend : ℚ)
  | overlayFmt (x y : Int)
deriving DecidableEq

def FOp.isColorkey : FOp → Bool
  | .keyChain _ _ _ => true
  | _ => false

structure FNode where
  ins : List StreamRef
  op : FOp
  out : Label
deriving DecidableEq

/-- The `filter_complex` of the border branch, `render.py` lines 99-106:
`[1:v]{img_chain}[photo]; color=c=black:s={cw}x{ch}[base];
[base][photo]overlay={x}:{y}[bg];
[0:v]format=rgba,colorkey=0x{hex}:{sim}:{blend}[fg];
[bg][fg]overlay=0:0[v1]; [v1][2:v]overlay=0:0,format=yuv420p[vout]`. -/
def filterComplexBorder (chain : ImgChain) (cw ch : ℕ) (x y : Int)
    (hex : String) (sim blend : ℚ) : List FNode :=
  [ ⟨[.input 1], .imgScale chain, .photo⟩,
    ⟨[], .colorSrc cw ch, .base⟩,
    ⟨[.labeled .base, .labeled .photo], .overlay x y, .bg⟩,
    ⟨[.input 0], .keyChain hex sim blend, .fg⟩,
    ⟨[.labeled .bg, .labeled .fg], .overlay 0 0, .v1⟩,
    ⟨[.labeled .v1, .input 2], .overlayFmt 0 0, .vout⟩ ]

/-- The `filter_complex` of the no-border branch, `render.py`
lines 118-124. -/
def filterComplexNoBorder (chain : ImgChain) (cw ch : ℕ) (x y : Int)
    (hex : String) (sim blend : ℚ) : List FNode :=
  [ ⟨[.input 1], .imgScale chain, .photo⟩,
    ⟨[], .colorSrc cw ch, .base⟩,
    ⟨[.labeled .base, .labeled .photo], .overlay x y, .bg⟩,
    ⟨[.input 0], .keyChain hex sim blend, .fg⟩,
    ⟨[.labeled .bg, .labeled .fg], .overlayFmt 0 0, .vout⟩ ]

/-! ## Flattening a filter graph into back-to-front layers -/

/-- Primitive layer sources of a flattened graph. -/
inductive LSrc
  | solidBlack (w h : ℕ)
  | rawPhoto
  | scaledPhoto (chain : ImgChain)
  | template
  | borderAsset
  | rawInput (n : ℕ)
deriving DecidableEq

/-- One placed layer of the composition: its source, the position the
enclosing overlay gave it, and whether the colorkey filter ran on its
stream. -/
structure Layer where
  src : LSrc
  x : Int
  y : Int
  keyed : Bool
deriving DecidableEq

/-- Interpret a stream reference of a filter graph as the ordered
back-to-front list of placed layers it produces.  `overlay x y` places
the layers of its second input at `(x, y)` over those of its first;
`colorkey` marks its input stream as keyed; fuel bounds the recursion
through labelled streams. -/
def flattenRef (g : List FNode) : ℕ → StreamRef → List Layer
  | _, .input 0 => [⟨.template, 0, 0, false⟩]
  | _, .input 1 => [⟨.rawPhoto, 0, 0, false⟩]
  | _, .input 2 => [⟨.borderAsset, 0, 0, false⟩]
  | _, .input (n + 3) => [⟨.rawInput (n + 3), 0, 0, false⟩]
  | 0, .labeled _ => []
  | fuel + 1, .labeled l =>
    match g.find? (fun nd => nd.out == l) with
    | none => []
    | some nd =>
      match nd.op, nd.ins with
      | .imgScale chain, [r] =>
        (flattenRef g fuel r).map (fun L => { L with src := .scaledPhoto chain })
      | .colorSrc w h, [] => [⟨.solidBlack w h, 0, 0, false⟩]
      | .overlay x y, [a, b] =>
        flattenRef g fuel a ++ (flattenRef g fuel b).map (fun L => { L with x := x, y := y })
      | .keyChain _ _ _, [r] =>
        (flattenRef g fuel r).map (fun L => { L with keyed := true })
      | .overlayFmt x y, [a, b] =>
        flattenRef g fuel a ++ (flattenRef g fuel b).map (fun L => { L with x := x, y := y })
      | _, _ => []

/-! ## The composition plan and the main render -/

/-- Everything `render.py` hands to one ffmpeg encode invocation
(lines 107-116 resp. 125-133) that the claims are about: the canvas size
probed from the template video, the filter graph, and the encoding knobs
`-r fps -crf crf -preset preset`. -/
structure Plan where
  canvasW : ℕ
  canvasH : ℕ
  graph : List FNode
  fps : Int
  crf : Int
  preset : String
deriving DecidableEq

/-- Assemble the plan from the resolved config, the probed canvas size and
whether a border input is present (`render.py` lines 85-133). -/
def buildPlan (r : Resolved) (canvas : ℕ × ℕ) (hasBorder : Bool) : Plan where
  canvasW := canvas.1
  canvasH := canvas.2
  graph :=
    if hasBorder then
      filterComplexBorder (planChain r) canvas.1 canvas.2 r.x r.y
        r.chromaHex r.similarity r.blend
    else
      filterComplexNoBorder (planChain r) canvas.1 canvas.2 r.x r.y
        r.chromaHex r.similarity r.blend
  fps := r.fps
  crf := r.crf
  preset := r.preset

/-- The back-to-front layers of a plan: the flattening of its `[vout]`
stream (fuel 10 is far more than the graph depth). -/
def planLayers (p : Plan) : List Layer :=
  flattenRef p.graph 10 (.labeled .vout)

/-- The external process invocations `render.py` can make: the two
version checks of `ensure_ffmpeg` (lines 8-13), the `ffprobe` size query
(lines 16-32), and the ffmpeg encode (line 135). -/
inductive Proc
  | ffmpegVersion
  | ffprobeVersion
  | ffprobeSize
  | ffmpegEncode
deriving DecidableEq

/-- Error outcomes of `render.py main`; each `raise SystemExit(msg)` site
is mapped to the error kind the spec names for it. -/
inductive RenderError
  | FfmpegMissing
  | ConfigNotFound
  | TemplateVideoNotFound
  | InputNotFound
  | MediaProbeError
  | RenderFailed
deriving DecidableEq

/-- The parts of the outside world `render.py main` consults: which files
exist, what the template-video probe would return (its list of video
streams as width-height pairs), and whether the encode succeeds. -/
structure World where
  ffmpegOk : Bool
  configExists : Bool
  templateVideoExists : Bool
  borderExists : Bool
  imageExists : Bool
  probeStreams : List (ℕ × ℕ)
  encodeOk : Bool
deriving DecidableEq

/-- `ffprobe_size` of `render.py` lines 16-32: the width and height of
the first video stream, or an error when there is none. -/
def ffprobe_size (streams : List (ℕ × ℕ)) : Except String (ℕ × ℕ) :=
  match streams with
  | [] => .error "could not read video size"
  | s :: _ => .ok s

/-- `get_video_dimensions` of `intro_generator.py` lines 13-31 and
`outro_generator.py` lines 12-29: same probe, but an empty stream list
falls back to the default `(1080, 1920)`. -/
def get_video_dimensions (streams : List (ℕ × ℕ)) : ℕ × ℕ :=
  match streams with
  | [] => (1080, 1920)
  | s :: _ => s

/-- What one run of `render.py main` produces in the model: the external
processes it launched in order, the number of warnings printed, and its
result. -/
structure MainOutput where
  procs : List Proc
  warnings : ℕ
  result : Except RenderError Plan

/-- The part of `main` after the border handling (`render.py`
lines 62-135): parse/resolve values, check the customer image exists
(lines 76-78), probe the template video (line 83), build the filter graph
and run the encode (line 135). -/
def render_main_core (w : World) (r : Resolved) (hasBorder : Bool) :
    List Proc × Except RenderError Plan :=
  if w.imageExists then
    match ffprobe_size w.probeStreams with
    | .error _ => ([.ffmpegVersion, .ffprobeVersion, .ffprobeSize], .error .MediaProbeError)
    | .ok canvas =>
      if w.encodeOk then
        ([.ffmpegVersion, .ffprobeVersion, .ffprobeSize, .ffmpegEncode],
         .ok (buildPlan r canvas hasBorder))
      else
        ([.ffmpegVersion, .ffprobeVersion, .ffprobeSize, .ffmpegEncode],
         .error .RenderFailed)
  else
    ([.ffmpegVersion, .ffprobeVersion], .error .InputNotFound)

/-- `main` of `render.py` lines 42-136 over the abstract world:
`ensure_ffmpeg()` first (two version-check processes), then the
`template.json` existence check, the template-video existence check, the
border handling of lines 56-60 (configured-but-missing border prints a
warning and drops the border), then `render_main_core`. -/
def render_main (w : World) (cfg : RawConfig) : MainOutput :=
  if w.ffmpegOk then
    if w.configExists then
      if w.templateVideoExists then
        let borderConfigured := cfg.border_png.isSome
        let hasBorder := borderConfigured && w.borderExists
        let warn : ℕ := if borderConfigured && !w.borderExists then 1 else 0
        let core := render_main_core w (resolveConfig cfg) hasBorder
        ⟨core.1, warn, core.2⟩
      else ⟨[.ffmpegVersion, .ffprobeVersion], 0, .error .TemplateVideoNotFound⟩
    else ⟨[.ffmpegVersion, .ffprobeVersion], 0, .error .ConfigNotFound⟩
  else ⟨[.ffmpegVersion], 0, .error .FfmpegMissing⟩

/-! ## The app-level pipeline (`app.py render_video`)

Abstract state: which of the temporary artifacts currently exist. -/

structure TempFiles where
  intro : Bool
  mainClip : Bool
  outro : Bool
  concatList : Bool
deriving DecidableEq

/-- Which of the four pipeline stages of `app.py render_video` succeed. -/
structure AppWorld where
  introOk : Bool
  mainOk : Bool
  outroOk : Bool
  concatOk : Bool
deriving DecidableEq

/-- `concatenate_videos_with_outro` of `outro_generator.py`
lines 206-243: write the concat list, run the concat process, unlink the
concat list with `missing_ok=True`, then raise iff the process returned
non-zero.  Returns the new file state and whether it succeeded. -/
def concatenate_videos_with_outro (ok : Bool) (fs : TempFiles) :
    TempFiles × Bool :=
  let fs1 := { fs with concatList := true }
  let fs2 := { fs1 with concatList := false }
  (fs2, ok)

/-- `render_video` of `app.py` lines 79-128: create the intro clip,
render the main clip, create the outro clip, concatenate, and only then —
still inside the `try` body, with no `finally` — unlink the three
intermediate clips with `missing_ok=True`.  An exception at any stage
propagates immediately, skipping everything after it.  Returns the final
temp-file state and whether the call succeeded. -/
def render_video (w : AppWorld) (fs0 : TempFiles) : TempFiles × Bool :=
  if w.introOk then
    let fs1 := { fs0 with intro := true }
    if w.mainOk then
      let fs2 := { fs1 with mainClip := true }
      if w.outroOk then
        let fs3 := { fs2 with outro := true }
        let r := concatenate_videos_with_outro w.concatOk fs3
        if r.2 then
          ({ r.1 with intro := false, mainClip := false, outro := false }, true)
        else (r.1, false)
      else (fs2, false)
    else (fs1, false)
  else (fs0, false)

/-! ## Theorems -/

/-- Claim C1: with `fit=cover`, the derived chain scales the image so
that both scaled dimensions are at least the placeholder dimensions, then
center-crops (offsets at half the excess), and the emitted photo layer is
exactly `w×h`. -/
theorem c1_cover_fills_placeholder (r : Resolved) (iw ih : ℕ)
    (hfit : r.fit = "cover") :
    ∃ res, applyImgChain (planChain r) (iw, ih) = some res ∧
      r.w.toNat ≤ res.scaledW ∧ r.h.toNat ≤ res.scaledH ∧
      res.outW = r.w.toNat ∧ res.outH = r.h.toNat ∧
      res.offX = (res.scaledW - res.outW) / 2 ∧
      res.offY = (res.scaledH - res.outH) / 2 := by
  have hne : r.fit ≠ "contain" := by rw [hfit]; decide
  rw [planChain, if_neg hne]
  simp only [applyImgChain, scaleCover]
  rw [if_pos ⟨le_max_right _ _, le_max_right _ _⟩]
  exact ⟨_, rfl, le_max_right _ _, le_max_right _ _, rfl, rfl, rfl, rfl⟩

def rCover : Resolved :=
  ⟨100, 200, 800, 800, "3ec954", 23/100, 3/100, "cover", 30, 18, "medium",
   none, "template.mp4"⟩

/-- Witness for C1 at the spec's scenario: placeholder `800×800`,
`fit=cover`, image `400×600`. -/
theorem c1_cover_fills_placeholder_witness :
    rCover.fit = "cover" ∧
    ∃ res, applyImgChain (planChain rCover) (400, 600) = some res ∧
      rCover.w.toNat ≤ res.scaledW ∧ rCover.h.toNat ≤ res.scaledH ∧
      res.outW = rCover.w.toNat ∧ res.outH = rCover.h.toNat ∧
      res.offX = (res.scaledW - res.outW) / 2 ∧
      res.offY = (res.scaledH - res.outH) / 2 :=
  ⟨rfl, c1_cover_fills_placeholder rCover 400 600 rfl⟩

/-- Claim C2: with `fit=contain`, the derived chain scales the image so
that both scaled dimensions are at most the placeholder dimensions, then
center-pads to exactly `w×h`, the padding split equally between the two
opposite sides, differing by at most one pixel. -/
theorem c2_contain_letterboxes (r : Resolved) (iw ih : ℕ)
    (hfit : r.fit = "contain") :
    ∃ res, applyImgChain (planChain r) (iw, ih) = some res ∧
      res.scaledW ≤ r.w.toNat ∧ res.scaledH ≤ r.h.toNat ∧
      res.outW = r.w.toNat ∧ res.outH = r.h.toNat ∧
      res.offX ≤ (res.outW - res.scaledW) - res.offX ∧
      (res.outW - res.scaledW) - res.offX ≤ res.offX + 1 ∧
      res.offY ≤ (res.outH - res.scaledH) - res.offY ∧
      (res.outH - res.scaledH) - res.offY ≤ res.offY + 1 := by
  rw [planChain, if_pos hfit]
  simp only [applyImgChain, scaleContain]
  rw [if_pos ⟨min_le_right _ _, min_le_right _ _⟩]
  refine ⟨_, rfl, min_le_right _ _, min_le_right _ _, rfl, rfl, ?_, ?_, ?_, ?_⟩ <;>
    simp only [] <;> omega

def rContain : Resolved :=
  ⟨100, 200, 800, 800, "3ec954", 23/100, 3/100, "contain", 30, 18, "medium",
   none, "template.mp4"⟩

/-- Witness for C2 at the spec's scenario: placeholder `800×800`,
`fit=contain`, image `1600×400` (scaled to `800×200`, padded by `300`
top and bottom). -/
theorem c2_contain_letterboxes_witness :
    rContain.fit = "contain" ∧
    ∃ res, applyImgChain (planChain rContain) (1600, 400) = some res ∧
      res.scaledW ≤ rContain.w.toNat ∧ res.scaledH ≤ rContain.h.toNat ∧
      res.outW = rContain.w.toNat ∧ res.outH = rContain.h.toNat ∧
      res.offX ≤ (res.outW - res.scaledW) - res.offX ∧
      (res.outW - res.scaledW) - res.offX ≤ res.offX + 1 ∧
      res.offY ≤ (res.outH - res.scaledH) - res.offY ∧
      (res.outH - res.scaledH) - res.offY ≤ res.offY + 1 :=
  ⟨rfl, c2_contain_letterboxes rContain 1600 400 rfl⟩

/-- Claim C3: for every resolved config and canvas, the plan's layers,
back to front, are the solid background at full canvas size, the scaled
photo at `(x, y)`, the chroma-keyed template at `(0, 0)`, and — when a
border input is present — the border at `(0, 0)` topmost; and in both
plan variants the colorkey operation occurs exactly once, applied to
input stream 0 (the template), never to the photo or border streams. -/
theorem c3_layer_order (r : Resolved) (canvas : ℕ × ℕ) :
    planLayers (buildPlan r canvas true) =
      [⟨.solidBlack canvas.1 canvas.2, 0, 0, false⟩,
       ⟨.scaledPhoto (planChain r), r.x, r.y, false⟩,
       ⟨.template, 0, 0, true⟩,
       ⟨.borderAsset, 0, 0, false⟩] ∧
    planLayers (buildPlan r canvas false) =
      [⟨.solidBlack canvas.1 canvas.2, 0, 0, false⟩,
       ⟨.scaledPhoto (planChain r), r.x, r.y, false⟩,
       ⟨.template, 0, 0, true⟩] ∧
    (buildPlan r canvas true).graph.filter (fun nd => nd.op.isColorkey) =
      [⟨[.input 0], .keyChain r.chromaHex r.similarity r.blend, .fg⟩] ∧
    (buildPlan r canvas false).graph.filter (fun nd => nd.op.isColorkey) =
      [⟨[.input 0], .keyChain r.chromaHex r.similarity r.blend, .fg⟩] :=
  ⟨rfl, rfl, rfl, rfl⟩

/-- Claim C10: any resolved `fit` whose lowercasing is not `"contain"` —
misspellings included — silently selects the cover chain; chain selection
is total, so no error is possible. -/
theorem c10_unknown_fit_defaults_to_cover (cfg : RawConfig) (s : String)
    (hs : cfg.fit = some s) (hcontain : pyLower s ≠ "contain") :
    planChain (resolveConfig cfg) =
      .cover cfg.placeholder.w cfg.placeholder.h := by
  unfold planChain
  have hfit : (resolveConfig cfg).fit = pyLower s := by
    simp [resolveConfig, hs]
  rw [hfit, if_neg hcontain]
  rfl

def cfgTypo : RawConfig :=
  ⟨none, none, ⟨0, 0, 800, 800⟩, none, none, none, some "Covr", none, none, none⟩

/-- Witness for C10 at a concrete misspelt fit value. -/
theorem c10_unknown_fit_defaults_to_cover_witness :
    cfgTypo.fit = some "Covr" ∧ pyLower "Covr" ≠ "contain" ∧
    planChain (resolveConfig cfgTypo) =
      .cover cfgTypo.placeholder.w cfgTypo.placeholder.h :=
  ⟨rfl, by decide, c10_unknown_fit_defaults_to_cover cfgTypo "Covr" rfl (by decide)⟩

def noneCfg (p : Placeholder) : RawConfig :=
  ⟨none, none, p, none, none, none, none, none, none, none⟩

/-- Claim C4: in every config — whatever its other fields hold — each
absent field resolves to exactly its documented default
(`hex="3ec954"`, `similarity=0.23`, `blend=0.03`, `fit="cover"`,
`fps=30`, `crf=18`, `preset="medium"`), and any config without
`border_png` whose render succeeds produces a plan with no border
layer. -/
theorem c4_defaults (w : World) (cfg : RawConfig) (plan : Plan) :
    (cfg.chroma_hex = none → (resolveConfig cfg).chromaHex = "3ec954") ∧
    (cfg.chroma_similarity = none →
      (resolveConfig cfg).similarity = 23/100) ∧
    (cfg.chroma_blend = none → (resolveConfig cfg).blend = 3/100) ∧
    (cfg.fit = none → (resolveConfig cfg).fit = "cover") ∧
    (cfg.out_fps = none → (resolveConfig cfg).fps = 30) ∧
    (cfg.out_crf = none → (resolveConfig cfg).crf = 18) ∧
    (cfg.out_preset = none → (resolveConfig cfg).preset = "medium") ∧
    (cfg.border_png = none → (render_main w cfg).result = .ok plan →
      ∀ L ∈ planLayers plan, L.src ≠ .borderAsset) := by
  refine ⟨?_, ?_, ?_, ?_, ?_, ?_, ?_, ?_⟩
  · intro h; simp [resolveConfig, h]; decide
  · intro h; simp [resolveConfig, h]
  · intro h; simp [resolveConfig, h]
  · intro h; simp [resolveConfig, h]; decide
  · intro h; simp [resolveConfig, h]
  · intro h; simp [resolveConfig, h]
  · intro h; simp [resolveConfig, h]
  intro hb hok
  rcases w with ⟨f, ce, te, be, ie, ps, eo⟩
  rcases ps with _ | ⟨c0, ps⟩ <;> cases f <;> cases ce <;> cases te <;>
    cases ie <;> cases eo <;>
    simp [render_main, render_main_core, ffprobe_size, hb] at hok
  subst hok
  intro L hL
  have hpl : planLayers (buildPlan (resolveConfig cfg) c0 false) =
      [⟨.solidBlack c0.1 c0.2, 0, 0, false⟩,
       ⟨.scaledPhoto (planChain (resolveConfig cfg)),
        (resolveConfig cfg).x, (resolveConfig cfg).y, false⟩,
       ⟨.template, 0, 0, true⟩] := rfl
  rw [hpl] at hL
  simp only [List.mem_cons, List.not_mem_nil, or_false] at hL
  rcases hL with rfl | rfl | rfl <;> simp

def phWitness : Placeholder := ⟨100, 200, 800, 800⟩

def worldAllOk : World := ⟨true, true, true, true, true, [(1080, 1920)], true⟩

def planNoBorder : Plan :=
  buildPlan (resolveConfig (noneCfg phWitness)) (1080, 1920) false

/-- Witness for C4: every default clause discharged at a concrete
all-absent config, and a successful run in an all-ok world whose plan
has no border layer. -/
theorem c4_defaults_witness :
    (resolveConfig (noneCfg phWitness)).chromaHex = "3ec954" ∧
    (resolveConfig (noneCfg phWitness)).similarity = 23/100 ∧
    (resolveConfig (noneCfg phWitness)).blend = 3/100 ∧
    (resolveConfig (noneCfg phWitness)).fit = "cover" ∧
    (resolveConfig (noneCfg phWitness)).fps = 30 ∧
    (resolveConfig (noneCfg phWitness)).crf = 18 ∧
    (resolveConfig (noneCfg phWitness)).preset = "medium" ∧
    ∀ L ∈ planLayers planNoBorder, L.src ≠ .borderAsset :=
  have h := c4_defaults worldAllOk (noneCfg phWitness) planNoBorder
  ⟨h.1 rfl, h.2.1 rfl, h.2.2.1 rfl, h.2.2.2.1 rfl, h.2.2.2.2.1 rfl,
   h.2.2.2.2.2.1 rfl, h.2.2.2.2.2.2.1 rfl, h.2.2.2.2.2.2.2 rfl rfl⟩

def worldNoImage : World := ⟨true, true, true, true, false, [(1080, 1920)], true⟩

def cfgMinimal : RawConfig :=
  ⟨none, none, ⟨100, 200, 800, 800⟩, none, none, none, none, none, none, none⟩

/-- Counterexample to C5 as stated: with the customer image missing, the
run does fail with `InputNotFound`, but the number of external processes
started before that is not zero — `ensure_ffmpeg` has already launched
the `ffmpeg -version` and `ffprobe -version` checks (`render.py`
lines 8-13, called at line 43, before the image check at line 77). -/
theorem c5_counterexample :
    (render_main worldNoImage cfgMinimal).result = .error .InputNotFound ∧
    (render_main worldNoImage cfgMinimal).procs ≠ [] ∧
    (render_main worldNoImage cfgMinimal).procs =
      [.ffmpegVersion, .ffprobeVersion] :=
  ⟨rfl, by decide, rfl⟩

/-- Claim C5 (amended): a missing customer image fails with
`InputNotFound` before any external media processing — the probe and the
encode are never launched; the only processes started are the two
toolchain version checks that `ensure_ffmpeg` runs at entry. -/
theorem c5_missing_image_fails_before_processing (w : World)
    (cfg : RawConfig) (hff : w.ffmpegOk = true)
    (hcfg : w.configExists = true) (htv : w.templateVideoExists = true)
    (himg : w.imageExists = false) :
    (render_main w cfg).result = .error .InputNotFound ∧
    (render_main w cfg).procs = [.ffmpegVersion, .ffprobeVersion] ∧
    Proc.ffprobeSize ∉ (render_main w cfg).procs ∧
    Proc.ffmpegEncode ∉ (render_main w cfg).procs := by
  simp [render_main, render_main_core, hff, hcfg, htv, himg]

/-- Witness for the amended C5 at a concrete world and config. -/
theorem c5_missing_image_witness :
    (render_main worldNoImage cfgMinimal).result = .error .InputNotFound ∧
    (render_main worldNoImage cfgMinimal).procs =
      [.ffmpegVersion, .ffprobeVersion] ∧
    Proc.ffprobeSize ∉ (render_main worldNoImage cfgMinimal).procs ∧
    Proc.ffmpegEncode ∉ (render_main worldNoImage cfgMinimal).procs :=
  c5_missing_image_fails_before_processing worldNoImage cfgMinimal
    rfl rfl rfl rfl

/-- Claim C6: a configured-but-missing border file makes the run print
one warning and produce exactly the processes and result of the same
config without `border_png`; it never fails for this reason. -/
theorem c6_missing_border_warns_and_drops (w : World) (cfg : RawConfig)
    (b : String) (hb : cfg.border_png = some b)
    (hmiss : w.borderExists = false) (hff : w.ffmpegOk = true)
    (hcfg : w.configExists = true) (htv : w.templateVideoExists = true) :
    (render_main w cfg).warnings = 1 ∧
    (render_main w cfg).result =
      (render_main w { cfg with border_png := none }).result ∧
    (render_main w cfg).procs =
      (render_main w { cfg with border_png := none }).procs := by
  have hcore :
      render_main_core w (resolveConfig { cfg with border_png := none })
        false = render_main_core w (resolveConfig cfg) false := rfl
  simp [render_main, hb, hmiss, hff, hcfg, htv, hcore]

def worldBorderMiss : World :=
  ⟨true, true, true, false, true, [(1080, 1920)], true⟩

def cfgBorder : RawConfig :=
  ⟨none, some "frame.png", ⟨100, 200, 800, 800⟩, none, none, none, none,
   none, none, none⟩

/-- Witness for C6 at a concrete world and config. -/
theorem c6_missing_border_witness :
    (render_main worldBorderMiss cfgBorder).warnings = 1 ∧
    (render_main worldBorderMiss cfgBorder).result =
      (render_main worldBorderMiss
        { cfgBorder with border_png := none }).result ∧
    (render_main worldBorderMiss cfgBorder).procs =
      (render_main worldBorderMiss
        { cfgBorder with border_png := none }).procs :=
  c6_missing_border_warns_and_drops worldBorderMiss cfgBorder "frame.png"
    rfl rfl rfl rfl rfl

/-- Claim C7: when the template video has no decodable video stream, the
main render fails with `MediaProbeError` rather than guessing a canvas,
while the intro/outro dimension probe falls back to the default
`1080×1920` canvas under the same condition. -/
theorem c7_probe_failure_asymmetry (w : World) (cfg : RawConfig)
    (hff : w.ffmpegOk = true) (hcfg : w.configExists = true)
    (htv : w.templateVideoExists = true) (himg : w.imageExists = true)
    (hstreams : w.probeStreams = []) :
    (render_main w cfg).result = .error .MediaProbeError ∧
    get_video_dimensions w.probeStreams = (1080, 1920) := by
  simp [render_main, render_main_core, ffprobe_size, get_video_dimensions,
    hff, hcfg, htv, himg, hstreams]

def worldNoStreams : World := ⟨true, true, true, true, true, [], true⟩

/-- Witness for C7 at a concrete world and config. -/
theorem c7_probe_failure_witness :
    (render_main worldNoStreams cfgMinimal).result =
      .error .MediaProbeError ∧
    get_video_dimensions worldNoStreams.probeStreams = (1080, 1920) :=
  c7_probe_failure_asymmetry worldNoStreams cfgMinimal rfl rfl rfl rfl rfl

def cfgFull : RawConfig :=
  ⟨some "t.mp4", some "border.png", ⟨100, 200, 800, 800⟩, some "#3EC954",
   some (3/10), some (1/10), some "Cover", some 25, some 20, some "slow"⟩

/-- Counterexample to C8 as stated: a config with every field explicitly
present whose resolution alters explicit values — the chroma hex
`"#3EC954"` resolves to its lowercased, `#`-stripped form `"3ec954"`,
and the fit string `"Cover"` resolves to its lowercased form `"cover"`
(`render.py` lines 66 and 70). -/
theorem c8_counterexample :
    cfgFull.chroma_hex = some "#3EC954" ∧
    (resolveConfig cfgFull).chromaHex ≠ "#3EC954" ∧
    (resolveConfig cfgFull).chromaHex = "3ec954" ∧
    cfgFull.fit = some "Cover" ∧
    (resolveConfig cfgFull).fit ≠ "Cover" ∧
    (resolveConfig cfgFull).fit = "cover" :=
  ⟨rfl, by decide, by decide, rfl, by decide, by decide⟩

/-- Claim C8 (amended): resolving a config with all fields explicitly
present substitutes no default; every explicit value is preserved
verbatim, except that the chroma hex resolves to its lowercased,
`#`-stripped form and the fit string resolves to its lowercased form. -/
theorem c8_explicit_roundtrip (cfg : RawConfig)
    (tv b hx ft pr : String) (s bl : ℚ) (fps crf : Int)
    (htv : cfg.template_video = some tv) (hb : cfg.border_png = some b)
    (hhx : cfg.chroma_hex = some hx)
    (hsim : cfg.chroma_similarity = some s)
    (hbl : cfg.chroma_blend = some bl) (hft : cfg.fit = some ft)
    (hfps : cfg.out_fps = some fps) (hcrf : cfg.out_crf = some crf)
    (hpr : cfg.out_preset = some pr) :
    resolveConfig cfg =
      ⟨cfg.placeholder.x, cfg.placeholder.y, cfg.placeholder.w,
       cfg.placeholder.h, stripHashes (pyLower hx), s, bl, pyLower ft,
       fps, crf, pr, some b, tv⟩ := by
  simp [resolveConfig, htv, hb, hhx, hsim, hbl, hft, hfps, hcrf, hpr]

/-- Witness for the amended C8 at the concrete all-fields-present config
`cfgFull`, whose hex and fit are not in normal form: the resolution
applies exactly the two normalizations and preserves everything else. -/
theorem c8_explicit_roundtrip_witness :
    resolveConfig cfgFull =
      ⟨100, 200, 800, 800, stripHashes (pyLower "#3EC954"), 3/10, 1/10,
       pyLower "Cover", 25, 20, "slow", some "border.png", "t.mp4"⟩ :=
  c8_explicit_roundtrip cfgFull "t.mp4" "border.png" "#3EC954" "Cover"
    "slow" (3/10) (1/10) 25 20 rfl rfl rfl rfl rfl rfl rfl rfl rfl

/-- Counterexample to C9 as stated: when the final concatenation fails,
`render_video` raises before reaching its cleanup lines (`app.py`
lines 121-124 are inside the `try` body with no `finally`), so the intro,
main and outro intermediate clips all remain on disk on that failure
path. -/
theorem c9_counterexample :
    (render_video ⟨true, true, true, false⟩
      ⟨false, false, false, false⟩).2 = false ∧
    (render_video ⟨true, true, true, false⟩
      ⟨false, false, false, false⟩).1 = ⟨true, true, true, false⟩ := by
  decide

/-- Claim C9 (amended): the temporary artifacts are removed on the
success path (removal uses `missing_ok=True`, so a missing file during
cleanup is not an error), and the concat list file is removed even when
the concatenation process fails; but the intro, main and outro
intermediate clips are not removed on failure paths. -/
theorem c9_cleanup (w : AppWorld) (fs : TempFiles)
    (hcl : fs.concatList = false) :
    ((render_video w fs).2 = true →
      (render_video w fs).1.intro = false ∧
      (render_video w fs).1.mainClip = false ∧
      (render_video w fs).1.outro = false ∧
      (render_video w fs).1.concatList = false) ∧
    (render_video w fs).1.concatList = false := by
  rcases w with ⟨i, m, o, c⟩
  rcases fs with ⟨a, b, cc, d⟩
  cases i <;> cases m <;> cases o <;> cases c <;>
    simp_all [render_video, concatenate_videos_with_outro]

/-- Witness for the amended C9: an all-success run starting from a clean
temp state ends with every artifact removed. -/
theorem c9_cleanup_witness :
    ((render_video ⟨true, true, true, true⟩
        ⟨false, false, false, false⟩).2 = true →
      (render_video ⟨true, true, true, true⟩
        ⟨false, false, false, false⟩).1.intro = false ∧
      (render_video ⟨true, true, true, true⟩
        ⟨false, false, false, false⟩).1.mainClip = false ∧
      (render_video ⟨true, true, true, true⟩
        ⟨false, false, false, false⟩).1.outro = false ∧
      (render_video ⟨true, true, true, true⟩
        ⟨false, false, false, false⟩).1.concatList = false) ∧
    (render_video ⟨true, true, true, true⟩
      ⟨false, false, false, false⟩).1.concatList = false :=
  c9_cleanup ⟨true, true, true, true⟩ ⟨false, false, false, false⟩ rfl
